import Mathlib

/-!
# NGC License Server — verification of the license lifecycle core

A shallow embedding of `app.py` (the NGC license server): the license store,
the append-only validation log, and the four request handlers
`validate_license`, `activate_license`, `generate_license` and
`check_license`, together with theorems about the spec's claims.

Modelling conventions:
* Timestamps (`datetime.now()`) are seconds since the epoch, as `Int`.
* Calendar dates (`YYYY-MM-DD` strings) are day numbers since the epoch, as
  `Int`; parsing a date string with `strptime(_, '%Y-%m-%d')` yields the
  midnight of that day, i.e. `day * 86400` seconds.
* The SQLite tables become Lean lists: `licenses` (primary key
  `license_key`) and the append-only `validation_logs`.
* `secrets.token_hex`-based key generation is a random source, so the
  generated key is passed to `generate_license` as an explicit argument.
* Python exceptions caught by a handler's `except` clause (notably the
  `IntegrityError` raised by an `INSERT` that violates the primary key)
  become the handler's 500 branch, with the database left unchanged since
  `conn.commit()` is never reached.
-/

set_option linter.unusedVariables false

namespace NGC

/-- Python `str.upper()` on the string's characters. -/
def pyUpper (s : String) : String :=
  String.mk (s.data.map Char.toUpper)

/-- Python `str.strip()`: drop whitespace at both ends. -/
def pyStrip (s : String) : String :=
  String.mk (((s.data.dropWhile Char.isWhitespace).reverse.dropWhile
    Char.isWhitespace).reverse)

/-- `license_key.strip().upper()` as done by the handlers. -/
def normalizeKey (s : String) : String := pyUpper (pyStrip s)

/-- Seconds since epoch, modelling a Python `datetime`. -/
abbrev Timestamp := Int

/-- Day number since epoch, modelling a `YYYY-MM-DD` date string. -/
abbrev Day := Int

def secondsPerDay : Int := 86400

/-- `strftime('%Y-%m-%d')`: the date component of a timestamp. -/
def dateOf (t : Timestamp) : Day := Int.fdiv t secondsPerDay

/-- `strptime(d, '%Y-%m-%d')`: a date string parses to midnight of that day. -/
def midnight (d : Day) : Timestamp := d * secondsPerDay

/-- Python `timedelta.days`: the floor of the difference measured in days. -/
def timedeltaDays (diff : Int) : Int := Int.fdiv diff secondsPerDay

/-- One row of the `licenses` table. -/
structure License where
  license_key : String
  email : String
  product : String
  created_date : Day
  expiry_date : Day
  status : String
  activations : Int
  max_activations : Int
  last_validated : Option Timestamp
  account_number : Option String
deriving DecidableEq, Repr

/-- The `result` column of a validation-log row. -/
inductive LogResult where
  | NOT_FOUND
  | EXPIRED
  | INACTIVE
  | SUCCESS
deriving DecidableEq, Repr

/-- One row of the append-only `validation_logs` table (the auto-increment
`id` is the row's position in the list). -/
structure LogEntry where
  license_key : String
  timestamp : Timestamp
  ip_address : String
  result : LogResult
deriving DecidableEq, Repr

/-- The durable state: both SQLite tables. -/
structure ServerState where
  licenses : List License
  validation_logs : List LogEntry
deriving DecidableEq, Repr

/-- `SELECT ... FROM licenses WHERE license_key = ?` with `fetchone`. -/
def findLicense (ls : List License) (key : String) : Option License :=
  ls.find? (fun l => l.license_key == key)

/-- `UPDATE licenses SET ... WHERE license_key = ?`. -/
def updateLicense (ls : List License) (key : String) (f : License → License) :
    List License :=
  ls.map (fun l => if l.license_key == key then f l else l)

/-- `INSERT INTO validation_logs ... VALUES (?, ?, ?, ?)`. -/
def logInsert (st : ServerState) (key : String) (now : Timestamp) (ip : String)
    (r : LogResult) : ServerState :=
  { st with validation_logs := st.validation_logs ++ [⟨key, now, ip, r⟩] }

/-- JSON body returned by `/validate` (absent keys are `none`), paired with
the HTTP status code. -/
structure ValidateResponse where
  valid : Bool
  message : Option String
  expires : Option Day
  status : Option String
  product : Option String
  days_remaining : Option Int
  http : Nat
deriving DecidableEq, Repr

/-- The `/validate` handler (`validate_license` in `app.py`). -/
def validate_license (st : ServerState)
    (license_key_raw account_number ip_address : String) (now : Timestamp) :
    ValidateResponse × ServerState :=
  let license_key := normalizeKey license_key_raw
  if license_key = "" then
    ({ valid := false, message := some "License key is required",
       expires := none, status := none, product := none,
       days_remaining := none, http := 400 }, st)
  else
    match findLicense st.licenses license_key with
    | none =>
        ({ valid := false, message := some "License key not found",
           expires := none, status := none, product := none,
           days_remaining := none, http := 200 },
         logInsert st license_key now ip_address LogResult.NOT_FOUND)
    | some lic =>
        if midnight lic.expiry_date < now then
          ({ valid := false, message := some "License has expired",
             expires := some lic.expiry_date, status := none, product := none,
             days_remaining := none, http := 200 },
           logInsert st license_key now ip_address LogResult.EXPIRED)
        else if lic.status ≠ "active" then
          ({ valid := false,
             message := some ("License status: " ++ lic.status),
             expires := none, status := none, product := none,
             days_remaining := none, http := 200 },
           logInsert st license_key now ip_address LogResult.INACTIVE)
        else
          let validated :=
            updateLicense st.licenses license_key
              (fun l => { l with last_validated := some now })
          ({ valid := true, message := some "License valid",
             expires := some lic.expiry_date, status := some lic.status,
             product := some lic.product,
             days_remaining :=
               some (timedeltaDays (midnight lic.expiry_date - now)),
             http := 200 },
           logInsert { st with licenses := validated }
             license_key now ip_address LogResult.SUCCESS)

/-- JSON body returned by `/activate`, paired with the HTTP status code. -/
structure ActivateResponse where
  success : Bool
  message : String
  activations_used : Option Int
  activations_remaining : Option Int
  http : Nat
deriving DecidableEq, Repr

/-- The `/activate` handler (`activate_license` in `app.py`). -/
def activate_license (st : ServerState)
    (license_key_raw account_number : String) :
    ActivateResponse × ServerState :=
  let license_key := normalizeKey license_key_raw
  if license_key = "" then
    ({ success := false, message := "License key is required",
       activations_used := none, activations_remaining := none,
       http := 400 }, st)
  else
    match findLicense st.licenses license_key with
    | none =>
        ({ success := false, message := "License not found",
           activations_used := none, activations_remaining := none,
           http := 200 }, st)
    | some lic =>
        if lic.status ≠ "active" then
          ({ success := false, message := "License is " ++ lic.status,
             activations_used := none, activations_remaining := none,
             http := 200 }, st)
        else if lic.activations ≥ lic.max_activations then
          ({ success := false,
             message := "Maximum activations (" ++
               toString lic.max_activations ++ ") reached",
             activations_used := none, activations_remaining := none,
             http := 200 }, st)
        else
          let incremented :=
            updateLicense st.licenses license_key
              (fun l => { l with activations := l.activations + 1 })
          ({ success := true, message := "License activated successfully",
             activations_used := some (lic.activations + 1),
             activations_remaining :=
               some (lic.max_activations - (lic.activations + 1)),
             http := 200 },
           { st with licenses := incremented })

/-- A sequence of `/activate` calls, each giving a key and account number. -/
def activateSeq (st : ServerState) (calls : List (String × String)) :
    ServerState :=
  calls.foldl (fun s c => (activate_license s c.1 c.2).2) st

/-- The fallback for `os.environ.get('ADMIN_API_KEY', ...)`. -/
def defaultAdminKey : String := "change-me-in-production"

/-- JSON body returned by `/generate`, paired with the HTTP status code. -/
structure GenerateResponse where
  success : Bool
  message : Option String
  license_key : Option String
  email : Option String
  product : Option String
  created : Option Day
  expires : Option Day
  max_activations : Option Int
  http : Nat
deriving DecidableEq, Repr

/-- The `/generate` handler (`generate_license` in `app.py`).  `api_key` is
the `X-API-Key` header (absent = `none`), `env_admin_key` the
`ADMIN_API_KEY` environment variable (absent = `none`), and `generated_key`
the key produced by `generate_license_key()`.  A colliding insert raises an
`IntegrityError` that the `except` clause answers with a 500, leaving the
database unchanged. -/
def generate_license (st : ServerState) (api_key env_admin_key : Option String)
    (email_raw product : String) (duration_days max_activations : Int)
    (generated_key : String) (now : Timestamp) :
    GenerateResponse × ServerState :=
  let admin_api_key := env_admin_key.getD defaultAdminKey
  if api_key ≠ some admin_api_key then
    ({ success := false, message := some "Unauthorized", license_key := none,
       email := none, product := none, created := none, expires := none,
       max_activations := none, http := 401 }, st)
  else
    let email := pyStrip email_raw
    if email = "" then
      ({ success := false, message := some "Email is required",
         license_key := none, email := none, product := none, created := none,
         expires := none, max_activations := none, http := 400 }, st)
    else
      let created_date := dateOf now
      let expiry_date := dateOf (now + duration_days * secondsPerDay)
      if (findLicense st.licenses generated_key).isSome then
        ({ success := false, message := some "Server error during generation",
           license_key := none, email := none, product := none,
           created := none, expires := none, max_activations := none,
           http := 500 }, st)
      else
        ({ success := true, message := none,
           license_key := some generated_key, email := some email,
           product := some product, created := some created_date,
           expires := some expiry_date,
           max_activations := some max_activations, http := 200 },
         { st with licenses := st.licenses ++
             [{ license_key := generated_key, email := email,
                product := product, created_date := created_date,
                expiry_date := expiry_date, status := "active",
                activations := 0, max_activations := max_activations,
                last_validated := none, account_number := none }] })

/-- JSON body returned by `/check/<license_key>`, paired with the HTTP
status code. -/
structure CheckResponse where
  found : Bool
  message : Option String
  license_key : Option String
  email : Option String
  product : Option String
  created : Option Day
  expires : Option Day
  status : Option String
  activations : Option Int
  max_activations : Option Int
  days_remaining : Option Int
  last_validated : Option (Option Timestamp)
  http : Nat
deriving DecidableEq, Repr

/-- The `/check/<license_key>` handler (`check_license` in `app.py`). -/
def check_license (st : ServerState) (license_key_raw : String)
    (now : Timestamp) : CheckResponse × ServerState :=
  let license_key := normalizeKey license_key_raw
  match findLicense st.licenses license_key with
  | none =>
      ({ found := false, message := some "License not found",
         license_key := none, email := none, product := none, created := none,
         expires := none, status := none, activations := none,
         max_activations := none, days_remaining := none,
         last_validated := none, http := 200 }, st)
  | some lic =>
      ({ found := true, message := none, license_key := some license_key,
         email := some lic.email, product := some lic.product,
         created := some lic.created_date, expires := some lic.expiry_date,
         status := some (if midnight lic.expiry_date < now then "expired"
           else lic.status),
         activations := some lic.activations,
         max_activations := some lic.max_activations,
         days_remaining :=
           some (max 0 (timedeltaDays (midnight lic.expiry_date - now))),
         last_validated := some lic.last_validated, http := 200 }, st)

/-- The primary-key constraint of the `licenses` table: keys are unique. -/
def keysUnique (st : ServerState) : Prop :=
  (st.licenses.map License.license_key).Nodup

/-- The activation-ceiling invariant over the whole store. -/
def activationsBounded (st : ServerState) : Prop :=
  ∀ lic ∈ st.licenses, lic.activations ≤ lic.max_activations

/-- The spec's formula for the days-remaining field: the difference in
days rounded up (`ceil`, expressed with floor division on the negation). -/
def ceilDays (diff : Int) : Int := -(Int.fdiv (-diff) secondsPerDay)

/-- JSON body returned by `/stats`, paired with the HTTP status code. -/
structure StatsResponse where
  error : Option String
  total_licenses : Option Int
  active_licenses : Option Int
  expired_licenses : Option Int
  validations_today : Option Int
  http : Nat
deriving DecidableEq, Repr

/-- The `/stats` handler (`get_stats` in `app.py`).  The SQL date
comparisons become day-number comparisons: `expiry_date < date('now')`
compares the day numbers, and `timestamp LIKE '<today>%'` asks whether the
timestamp's date component is today. -/
def get_stats (st : ServerState) (api_key env_admin_key : Option String)
    (now : Timestamp) : StatsResponse × ServerState :=
  let admin_api_key := env_admin_key.getD defaultAdminKey
  if api_key ≠ some admin_api_key then
    ({ error := some "Unauthorized", total_licenses := none,
       active_licenses := none, expired_licenses := none,
       validations_today := none, http := 401 }, st)
  else
    ({ error := none,
       total_licenses := some (st.licenses.length : Int),
       active_licenses := some
         ((st.licenses.filter (fun l => l.status == "active")).length : Int),
       expired_licenses := some
         ((st.licenses.filter
           (fun l => decide (l.expiry_date < dateOf now))).length : Int),
       validations_today := some
         ((st.validation_logs.filter
           (fun e => dateOf e.timestamp == dateOf now)).length : Int),
       http := 200 }, st)

/-- How a log row's `result` tags the response handed back by `validate`. -/
def resultMatches (r : LogResult) (resp : ValidateResponse) : Prop :=
  match r with
  | LogResult.NOT_FOUND =>
      resp.valid = false ∧ resp.message = some "License key not found"
  | LogResult.EXPIRED =>
      resp.valid = false ∧ resp.message = some "License has expired"
  | LogResult.INACTIVE => resp.valid = false
  | LogResult.SUCCESS =>
      resp.valid = true ∧ resp.message = some "License valid"

/-! ## Concrete fixtures used by the witnesses -/

/-- A license sitting at its activation ceiling. -/
def licCeil : License :=
  { license_key := "NGC-0001-0001-0001-0001", email := "a@b.c",
    product := "NGC_EA", created_date := 0, expiry_date := 365,
    status := "active", activations := 1, max_activations := 1,
    last_validated := none, account_number := none }

/-- A license with a spare activation. -/
def licFree : License :=
  { license_key := "NGC-0002-0002-0002-0002", email := "d@e.f",
    product := "NGC_EA", created_date := 0, expiry_date := 365,
    status := "active", activations := 0, max_activations := 1,
    last_validated := none, account_number := none }

def stPair : ServerState :=
  { licenses := [licCeil, licFree], validation_logs := [] }

/-- A license whose activation count has reached its ceiling. -/
def licMaxed : License :=
  { license_key := "NGC-0003-0003-0003-0003", email := "g@h.i",
    product := "NGC_EA", created_date := 0, expiry_date := 365,
    status := "active", activations := 5, max_activations := 5,
    last_validated := none, account_number := none }

def stMaxed : ServerState :=
  { licenses := [licMaxed], validation_logs := [] }

/-- A license expiring at the first midnight after the epoch. -/
def licNoon : License :=
  { license_key := "NGC-0004-0004-0004-0004", email := "j@k.l",
    product := "NGC_EA", created_date := 0, expiry_date := 1,
    status := "active", activations := 0, max_activations := 1,
    last_validated := none, account_number := none }

def stNoon : ServerState :=
  { licenses := [licNoon], validation_logs := [] }

/-- A still-`active` license issued with zero duration: its expiry date is
its creation date (day 0). -/
def licDay0 : License :=
  { license_key := "NGC-0005-0005-0005-0005", email := "m@n.o",
    product := "NGC_EA", created_date := 0, expiry_date := 0,
    status := "active", activations := 0, max_activations := 1,
    last_validated := none, account_number := none }

def stDay0 : ServerState :=
  { licenses := [licDay0], validation_logs := [] }

/-! ## Helper lemmas about the store operations -/

theorem findLicense_mem {ls : List License} {key : String} {lic : License}
    (h : findLicense ls key = some lic) : lic ∈ ls :=
  List.mem_of_find?_eq_some h

theorem findLicense_key {ls : List License} {key : String} {lic : License}
    (h : findLicense ls key = some lic) : lic.license_key = key := by
  have := List.find?_some h
  simpa using this

/-- Under the primary-key constraint, any stored license carrying the looked
up key is the one `fetchone` returned. -/
theorem findLicense_eq_of_mem {ls : List License} {key : String}
    {lic l : License} (hnd : (ls.map License.license_key).Nodup)
    (hfind : findLicense ls key = some lic) (hl : l ∈ ls)
    (hk : l.license_key = key) : l = lic := by
  induction ls with
  | nil => cases hl
  | cons a tl ih =>
    rw [List.map_cons, List.nodup_cons] at hnd
    by_cases ha : a.license_key = key
    · have hfa : findLicense (a :: tl) key = some a := by
        unfold findLicense
        exact List.find?_cons_of_pos tl (by simpa using ha)
      have hla : lic = a := by
        rw [hfa] at hfind
        exact (Option.some_inj.mp hfind).symm
      cases hl with
      | head => exact hla.symm
      | tail _ hl =>
          refine absurd ?_ hnd.1
          rw [ha, ← hk]
          exact List.mem_map_of_mem License.license_key hl
    · have hfa : findLicense (a :: tl) key = findLicense tl key := by
        unfold findLicense
        exact List.find?_cons_of_neg tl (by simpa using ha)
      rw [hfa] at hfind
      cases hl with
      | head => exact absurd hk ha
      | tail _ hl => exact ih hnd.2 hfind hl

theorem mem_updateLicense {ls : List License} {key : String}
    {f : License → License} {l' : License}
    (h : l' ∈ updateLicense ls key f) :
    ∃ l ∈ ls, l' = if l.license_key == key then f l else l := by
  rcases List.mem_map.mp h with ⟨l, hl, hval⟩
  exact ⟨l, hl, hval.symm⟩

theorem updateLicense_map_key (ls : List License) (key : String)
    (f : License → License) (hf : ∀ l, (f l).license_key = l.license_key) :
    (updateLicense ls key f).map License.license_key =
      ls.map License.license_key := by
  unfold updateLicense
  rw [List.map_map]
  refine List.map_congr_left (fun l _ => ?_)
  simp only [Function.comp_apply]
  split <;> simp [hf]

/-- Branch analysis of the state change performed by `activate_license`:
either the state is untouched, or the found license was active and strictly
below its ceiling and exactly its `activations` field is incremented. -/
theorem activate_state_cases (st : ServerState) (key acct : String) :
    (activate_license st key acct).2 = st ∨
    ∃ lic, findLicense st.licenses (normalizeKey key) = some lic ∧
      lic.status = "active" ∧ lic.activations < lic.max_activations ∧
      (activate_license st key acct).2 =
        { st with licenses := (updateLicense st.licenses (normalizeKey key)
            (fun l => { l with activations := l.activations + 1 })) } := by
  unfold activate_license
  dsimp only
  split
  · exact Or.inl rfl
  · split
    · exact Or.inl rfl
    · next lic heq =>
      split
      · exact Or.inl rfl
      · next hstat =>
        split
        · exact Or.inl rfl
        · next hceil =>
          exact Or.inr ⟨lic, heq, not_not.mp hstat, lt_of_not_ge hceil, rfl⟩

/-- One `activate` call preserves the primary-key constraint and the
activation-ceiling invariant. -/
theorem activate_preserves_bounded (st : ServerState) (key acct : String)
    (hnd : keysUnique st) (hb : activationsBounded st) :
    keysUnique (activate_license st key acct).2 ∧
      activationsBounded (activate_license st key acct).2 := by
  rcases activate_state_cases st key acct with h | ⟨lic, hfind, hstat, hlt, h⟩
  · rw [h]; exact ⟨hnd, hb⟩
  · rw [h]
    constructor
    · unfold keysUnique
      dsimp only
      rw [updateLicense_map_key st.licenses (normalizeKey key)
        (fun l => { l with activations := l.activations + 1 })
        (fun l => rfl)]
      exact hnd
    · intro l' hl'
      rcases mem_updateLicense hl' with ⟨l, hl, rfl⟩
      split
      · next hkey =>
        have hlk : l = lic :=
          findLicense_eq_of_mem hnd hfind hl (by simpa using hkey)
        subst hlk
        show l.activations + 1 ≤ l.max_activations
        omega
      · exact hb l hl

/-- Any sequence of `activate` calls preserves both store invariants. -/
theorem activateSeq_preserves (st : ServerState)
    (calls : List (String × String)) (hnd : keysUnique st)
    (hb : activationsBounded st) :
    keysUnique (activateSeq st calls) ∧
      activationsBounded (activateSeq st calls) := by
  induction calls generalizing st with
  | nil => exact ⟨hnd, hb⟩
  | cons c tl ih =>
    have h := activate_preserves_bounded st c.1 c.2 hnd hb
    exact ih _ h.1 h.2

/-! ## Claim theorems -/

/-- C1: under the primary-key constraint, after any sequence of `activate`
calls a store satisfying `activations ≤ max_activations` still satisfies it;
a call finding the license active but at (or above) its ceiling returns
`success = false` with a message naming the limit and leaves the state
unchanged; a call finding it active and strictly below the ceiling succeeds
and increments exactly its `activations` field by 1. -/
theorem activate_respects_activation_ceiling (st : ServerState) :
    (∀ calls : List (String × String), keysUnique st → activationsBounded st →
       activationsBounded (activateSeq st calls)) ∧
    (∀ key acct lic, normalizeKey key ≠ "" →
       findLicense st.licenses (normalizeKey key) = some lic →
       lic.status = "active" → lic.activations ≥ lic.max_activations →
       (activate_license st key acct).1.success = false ∧
       (activate_license st key acct).1.message =
         "Maximum activations (" ++ toString lic.max_activations ++
           ") reached" ∧
       (activate_license st key acct).2 = st) ∧
    (∀ key acct lic, normalizeKey key ≠ "" →
       findLicense st.licenses (normalizeKey key) = some lic →
       lic.status = "active" → lic.activations < lic.max_activations →
       (activate_license st key acct).1.success = true ∧
       (activate_license st key acct).2.licenses =
         updateLicense st.licenses (normalizeKey key)
           (fun l => { l with activations := l.activations + 1 })) := by
  refine ⟨fun calls hnd hb => (activateSeq_preserves st calls hnd hb).2,
    fun key acct lic hk hfind hstat hge => ?_,
    fun key acct lic hk hfind hstat hlt => ?_⟩
  · unfold activate_license
    dsimp only
    rw [if_neg hk]
    simp only [hfind]
    rw [if_neg (not_not_intro hstat), if_pos hge]
    exact ⟨rfl, rfl, rfl⟩
  · unfold activate_license
    dsimp only
    rw [if_neg hk]
    simp only [hfind]
    rw [if_neg (not_not_intro hstat), if_neg (not_le.mpr hlt)]
    exact ⟨rfl, rfl⟩

theorem activate_respects_activation_ceiling_witness :
    activationsBounded
      (activateSeq stPair [("NGC-0001-0001-0001-0001", "7")]) ∧
    (activate_license stPair "NGC-0001-0001-0001-0001" "7").1.success =
      false ∧
    (activate_license stPair "NGC-0002-0002-0002-0002" "7").1.success =
      true := by
  refine ⟨(activate_respects_activation_ceiling stPair).1 _
      (by unfold keysUnique; decide) (by unfold activationsBounded; decide),
    ((activate_respects_activation_ceiling stPair).2.1
      "NGC-0001-0001-0001-0001" "7" licCeil (by decide) (by decide)
      rfl (by decide)).1,
    ((activate_respects_activation_ceiling stPair).2.2
      "NGC-0002-0002-0002-0002" "7" licFree (by decide) (by decide)
      rfl (by decide)).1⟩

/-- C2: validating a present, active, non-expired license returns
`valid = true` whatever `activations` and `max_activations` hold — the
activation ceiling never blocks validation. -/
theorem validate_ignores_activation_ceiling (st : ServerState)
    (key acct ip : String) (now : Timestamp) (lic : License)
    (hk : normalizeKey key ≠ "")
    (hfind : findLicense st.licenses (normalizeKey key) = some lic)
    (hstat : lic.status = "active")
    (hexp : ¬ midnight lic.expiry_date < now) :
    (validate_license st key acct ip now).1.valid = true := by
  unfold validate_license
  dsimp only
  rw [if_neg hk]
  simp only [hfind]
  rw [if_neg hexp, if_neg (not_not_intro hstat)]

theorem validate_ignores_activation_ceiling_witness :
    (validate_license stMaxed "NGC-0003-0003-0003-0003" "1" "ip"
      100).1.valid = true :=
  validate_ignores_activation_ceiling stMaxed
    "NGC-0003-0003-0003-0003" "1" "ip" 100 licMaxed
    (by decide) (by decide) rfl (by decide)

/-- C3: a `validate` call whose normalized key is empty is rejected with a
400 before touching storage — the state, in particular the validation log,
is unchanged; every other call appends exactly one log entry, carrying the
presented (normalized) key and a result tag that matches the returned
outcome, whether or not the key was found. -/
theorem validate_logs_exactly_once (st : ServerState)
    (key acct ip : String) (now : Timestamp) :
    (normalizeKey key = "" →
       (validate_license st key acct ip now).2 = st ∧
       (validate_license st key acct ip now).1.valid = false ∧
       (validate_license st key acct ip now).1.http = 400) ∧
    (normalizeKey key ≠ "" →
       ∃ e : LogEntry,
         (validate_license st key acct ip now).2.validation_logs =
           st.validation_logs ++ [e] ∧
         e.license_key = normalizeKey key ∧
         resultMatches e.result (validate_license st key acct ip now).1) := by
  constructor
  · intro hk
    unfold validate_license
    dsimp only
    rw [if_pos hk]
    exact ⟨rfl, rfl, rfl⟩
  · intro hk
    unfold validate_license
    dsimp only
    rw [if_neg hk]
    cases hfind : findLicense st.licenses (normalizeKey key) with
    | none =>
        simp only [hfind]
        exact ⟨⟨normalizeKey key, now, ip, LogResult.NOT_FOUND⟩,
          rfl, rfl, rfl, rfl⟩
    | some lic =>
        simp only [hfind]
        split
        · exact ⟨⟨normalizeKey key, now, ip, LogResult.EXPIRED⟩,
            rfl, rfl, rfl, rfl⟩
        · split
          · exact ⟨⟨normalizeKey key, now, ip, LogResult.INACTIVE⟩,
              rfl, rfl, rfl⟩
          · exact ⟨⟨normalizeKey key, now, ip, LogResult.SUCCESS⟩,
              rfl, rfl, rfl, rfl⟩

theorem validate_logs_exactly_once_witness :
    ((validate_license stPair "  " "1" "ip" 0).2 = stPair ∧
       (validate_license stPair "  " "1" "ip" 0).1.valid = false ∧
       (validate_license stPair "  " "1" "ip" 0).1.http = 400) ∧
    ∃ e : LogEntry,
      (validate_license stPair "nope" "1" "ip" 0).2.validation_logs =
        stPair.validation_logs ++ [e] ∧
      e.license_key = normalizeKey "nope" ∧
      resultMatches e.result (validate_license stPair "nope" "1" "ip" 0).1 :=
  ⟨(validate_logs_exactly_once stPair "  " "1" "ip" 0).1 (by decide),
   (validate_logs_exactly_once stPair "nope" "1" "ip" 0).2 (by decide)⟩

/-- C9: `activate` never writes to the validation log: on every branch of
`activate_license` (missing key, not found, inactive, ceiling reached,
success) the `validation_logs` relation of the resulting state is exactly
the one of the starting state. -/
theorem activate_never_logs (st : ServerState) (key acct : String) :
    (activate_license st key acct).2.validation_logs = st.validation_logs := by
  unfold activate_license
  dsimp only
  split
  · rfl
  · split
    · rfl
    · split
      · rfl
      · split <;> rfl

/-- C6 counterexample: at noon, half a day before the license's midnight
expiry, a successful validate returns `days_remaining = 0`, while
`ceil(expiry_date - now)` is `1` — the code returns the floor, not the
ceiling, of the time left. -/
theorem validate_days_remaining_not_ceil :
    (validate_license stNoon "NGC-0004-0004-0004-0004" "1" "ip"
      43200).1.valid = true ∧
    (validate_license stNoon "NGC-0004-0004-0004-0004" "1" "ip"
      43200).1.days_remaining = some 0 ∧
    ceilDays (midnight licNoon.expiry_date - 43200) = 1 ∧
    (validate_license stNoon "NGC-0004-0004-0004-0004" "1" "ip"
      43200).1.days_remaining ≠
      some (ceilDays (midnight licNoon.expiry_date - 43200)) :=
  ⟨by decide, by decide, by decide, by decide⟩

/-- C6 (amended): on a successful validate the returned `days_remaining` is
the floor of the time to expiry measured in days (Python's
`timedelta.days`), alongside `valid = true`, the stored status, product and
expiry date. -/
theorem validate_days_remaining_floor (st : ServerState)
    (key acct ip : String) (now : Timestamp) (lic : License)
    (hk : normalizeKey key ≠ "")
    (hfind : findLicense st.licenses (normalizeKey key) = some lic)
    (hstat : lic.status = "active")
    (hexp : ¬ midnight lic.expiry_date < now) :
    (validate_license st key acct ip now).1.days_remaining =
      some (timedeltaDays (midnight lic.expiry_date - now)) ∧
    (validate_license st key acct ip now).1.valid = true ∧
    (validate_license st key acct ip now).1.status = some lic.status ∧
    (validate_license st key acct ip now).1.product = some lic.product ∧
    (validate_license st key acct ip now).1.expires =
      some lic.expiry_date := by
  unfold validate_license
  dsimp only
  rw [if_neg hk]
  simp only [hfind]
  rw [if_neg hexp, if_neg (not_not_intro hstat)]
  exact ⟨rfl, rfl, rfl, rfl, rfl⟩

theorem validate_days_remaining_floor_witness :
    (validate_license stNoon "NGC-0004-0004-0004-0004" "1" "ip"
      43200).1.days_remaining =
      some (timedeltaDays (midnight licNoon.expiry_date - 43200)) :=
  (validate_days_remaining_floor stNoon "NGC-0004-0004-0004-0004" "1" "ip"
    43200 licNoon (by decide) (by decide) rfl (by decide)).1

/-- C7: `validate` treats a license as expired exactly when the parsed
expiry date — the midnight starting that calendar day — is strictly before
the current date-time (first two conjuncts give the two directions); a
license issued by `generate` with `duration_days = 0` gets
`expiry_date` = the issue date, so validating it at any moment of the same
day after midnight yields the expired outcome. -/
theorem validate_expiry_is_strict_datetime_comparison :
    (∀ (st : ServerState) (key acct ip : String) (now : Timestamp) lic,
       normalizeKey key ≠ "" →
       findLicense st.licenses (normalizeKey key) = some lic →
       midnight lic.expiry_date < now →
       (validate_license st key acct ip now).1.valid = false ∧
       (validate_license st key acct ip now).1.message =
         some "License has expired" ∧
       (validate_license st key acct ip now).1.expires =
         some lic.expiry_date ∧
       (validate_license st key acct ip now).2.validation_logs =
         st.validation_logs ++
           [⟨normalizeKey key, now, ip, LogResult.EXPIRED⟩]) ∧
    (∀ (st : ServerState) (key acct ip : String) (now : Timestamp) lic,
       normalizeKey key ≠ "" →
       findLicense st.licenses (normalizeKey key) = some lic →
       ¬ midnight lic.expiry_date < now →
       (validate_license st key acct ip now).1.valid = true ∨
       (validate_license st key acct ip now).1.expires = none) ∧
    (∀ (st : ServerState) (api_key env_key : Option String)
       (email_raw prod gen_key : String) (maxAct : Int) (t0 : Timestamp),
       api_key = some (env_key.getD defaultAdminKey) →
       pyStrip email_raw ≠ "" →
       findLicense st.licenses gen_key = none →
       ∃ l : License,
         (generate_license st api_key env_key email_raw prod 0 maxAct
           gen_key t0).2.licenses = st.licenses ++ [l] ∧
         l.license_key = gen_key ∧ l.expiry_date = dateOf t0 ∧
         l.status = "active") ∧
    (∀ (st : ServerState) (key acct ip : String) (t1 : Timestamp) lic,
       normalizeKey key ≠ "" →
       findLicense st.licenses (normalizeKey key) = some lic →
       lic.expiry_date = dateOf t1 →
       midnight (dateOf t1) < t1 →
       (validate_license st key acct ip t1).1.valid = false ∧
       (validate_license st key acct ip t1).1.message =
         some "License has expired") := by
  have hexpired : ∀ (st : ServerState) (key acct ip : String)
      (now : Timestamp) lic,
      normalizeKey key ≠ "" →
      findLicense st.licenses (normalizeKey key) = some lic →
      midnight lic.expiry_date < now →
      (validate_license st key acct ip now).1.valid = false ∧
      (validate_license st key acct ip now).1.message =
        some "License has expired" ∧
      (validate_license st key acct ip now).1.expires =
        some lic.expiry_date ∧
      (validate_license st key acct ip now).2.validation_logs =
        st.validation_logs ++
          [⟨normalizeKey key, now, ip, LogResult.EXPIRED⟩] := by
    intro st key acct ip now lic hk hfind hlt
    unfold validate_license
    dsimp only
    rw [if_neg hk]
    simp only [hfind]
    rw [if_pos hlt]
    exact ⟨rfl, rfl, rfl, rfl⟩
  refine ⟨hexpired, ?_, ?_, ?_⟩
  · intro st key acct ip now lic hk hfind hge
    unfold validate_license
    dsimp only
    rw [if_neg hk]
    simp only [hfind]
    rw [if_neg hge]
    split
    · exact Or.inr rfl
    · exact Or.inl rfl
  · intro st api_key env_key email_raw prod gen_key maxAct t0 hauth hemail
      hfresh
    unfold generate_license
    dsimp only
    rw [hauth]
    rw [if_neg (by simp)]
    rw [if_neg hemail]
    rw [if_neg (by simp [hfresh])]
    refine ⟨_, rfl, rfl, ?_, rfl⟩
    show dateOf (t0 + 0 * secondsPerDay) = dateOf t0
    norm_num
  · intro st key acct ip t1 lic hk hfind hexp hmid
    have h := hexpired st key acct ip t1 lic hk hfind (by rw [hexp]; exact hmid)
    exact ⟨h.1, h.2.1⟩

theorem validate_expiry_is_strict_datetime_comparison_witness :
    ((validate_license stDay0 "NGC-0005-0005-0005-0005" "1" "ip"
        43200).1.valid = false ∧
      (validate_license stDay0 "NGC-0005-0005-0005-0005" "1" "ip"
        43200).1.message = some "License has expired") ∧
    (∃ l : License,
      (generate_license stDay0 (some defaultAdminKey) none "p@q.r" "NGC_EA"
        0 1 "NGC-0006-0006-0006-0006" 43200).2.licenses =
        stDay0.licenses ++ [l] ∧
      l.license_key = "NGC-0006-0006-0006-0006" ∧
      l.expiry_date = dateOf 43200 ∧ l.status = "active") :=
  ⟨validate_expiry_is_strict_datetime_comparison.2.2.2 stDay0
      "NGC-0005-0005-0005-0005" "1" "ip" 43200 licDay0
      (by decide) (by decide) (by decide) (by decide),
    validate_expiry_is_strict_datetime_comparison.2.2.1 stDay0
      (some defaultAdminKey) none "p@q.r" "NGC_EA"
      "NGC-0006-0006-0006-0006" 1 43200 rfl (by decide) (by decide)⟩

/-- C8: `checkStatus` never mutates stored state (the returned state is the
starting state on every branch); an absent key answers `found = false`; a
present license past its expiry is displayed with status `"expired"`
whatever status is stored (which part one shows is left untouched); and the
returned `days_remaining` is floored at 0, hence never negative. -/
theorem check_status_read_only :
    (∀ (st : ServerState) (key : String) (now : Timestamp),
       (check_license st key now).2 = st) ∧
    (∀ (st : ServerState) (key : String) (now : Timestamp),
       findLicense st.licenses (normalizeKey key) = none →
       (check_license st key now).1.found = false) ∧
    (∀ (st : ServerState) (key : String) (now : Timestamp) lic,
       findLicense st.licenses (normalizeKey key) = some lic →
       midnight lic.expiry_date < now →
       (check_license st key now).1.found = true ∧
       (check_license st key now).1.status = some "expired") ∧
    (∀ (st : ServerState) (key : String) (now : Timestamp) lic,
       findLicense st.licenses (normalizeKey key) = some lic →
       (check_license st key now).1.days_remaining =
         some (max 0 (timedeltaDays (midnight lic.expiry_date - now))) ∧
       ∀ d : Int, (check_license st key now).1.days_remaining = some d →
         0 ≤ d) := by
  refine ⟨?_, ?_, ?_, ?_⟩
  · intro st key now
    unfold check_license
    dsimp only
    split <;> rfl
  · intro st key now hfind
    unfold check_license
    dsimp only
    simp only [hfind]
  · intro st key now lic hfind hlt
    unfold check_license
    dsimp only
    simp only [hfind]
    rw [if_pos hlt]
    exact ⟨trivial, rfl⟩
  · intro st key now lic hfind
    unfold check_license
    dsimp only
    simp only [hfind]
    refine ⟨trivial, fun d hd => ?_⟩
    have hd' : max 0 (timedeltaDays (midnight lic.expiry_date - now)) = d :=
      Option.some_inj.mp hd
    rw [← hd']
    exact le_max_left 0 _

theorem check_status_read_only_witness :
    (check_license stDay0 "NGC-0005-0005-0005-0005" 200000).2 = stDay0 ∧
    (check_license stDay0 "NGC-9999-9999-9999-9999" 200000).1.found =
      false ∧
    (check_license stDay0 "NGC-0005-0005-0005-0005" 200000).1.status =
      some "expired" ∧
    licDay0.status = "active" ∧
    (check_license stDay0 "NGC-0005-0005-0005-0005" 200000).1.days_remaining
      = some (max 0 (timedeltaDays (midnight licDay0.expiry_date -
        200000))) :=
  ⟨check_status_read_only.1 stDay0 "NGC-0005-0005-0005-0005" 200000,
   check_status_read_only.2.1 stDay0 "NGC-9999-9999-9999-9999" 200000
     (by decide),
   (check_status_read_only.2.2.1 stDay0 "NGC-0005-0005-0005-0005" 200000
     licDay0 (by decide) (by decide)).2,
   rfl,
   (check_status_read_only.2.2.2 stDay0 "NGC-0005-0005-0005-0005" 200000
     licDay0 (by decide)).1⟩

/-- C4: evaluation at the failing input.  With `ADMIN_API_KEY` unset (the
environment argument is `none`, so the placeholder default is in force), a
request presenting `X-API-Key: change-me-in-production` is NOT answered 401
by either admin operation: `/generate` succeeds and inserts a license, and
`/stats` reads and returns the aggregate counts — the placeholder behaves
as a usable secret instead of disabling admin operations. -/
theorem placeholder_admin_key_is_accepted :
    (generate_license stPair (some "change-me-in-production") none "x@y.z"
      "NGC_EA" 365 1 "NGC-0007-0007-0007-0007" 43200).1.success = true ∧
    (generate_license stPair (some "change-me-in-production") none "x@y.z"
      "NGC_EA" 365 1 "NGC-0007-0007-0007-0007" 43200).1.http ≠ 401 ∧
    (generate_license stPair (some "change-me-in-production") none "x@y.z"
      "NGC_EA" 365 1 "NGC-0007-0007-0007-0007"
      43200).2.licenses.length = 3 ∧
    (get_stats stPair (some "change-me-in-production") none 43200).1.http
      ≠ 401 ∧
    (get_stats stPair (some "change-me-in-production") none
      43200).1.total_licenses = some 2 :=
  ⟨by decide, by decide, by decide, by decide, by decide⟩

/-- C5 counterexample: when the freshly generated key collides with a
stored `license_key`, `/generate` does not retry with another key — the
colliding insert makes the call fail with a 500 server error and the store
is left unchanged (no new record, nothing overwritten). -/
theorem generate_collision_fails_without_retry :
    (generate_license stPair (some "change-me-in-production") none "x@y.z"
      "NGC_EA" 365 1 "NGC-0001-0001-0001-0001" 43200).1.success = false ∧
    (generate_license stPair (some "change-me-in-production") none "x@y.z"
      "NGC_EA" 365 1 "NGC-0001-0001-0001-0001" 43200).1.http = 500 ∧
    (generate_license stPair (some "change-me-in-production") none "x@y.z"
      "NGC_EA" 365 1 "NGC-0001-0001-0001-0001" 43200).2 = stPair :=
  ⟨by decide, by decide, by decide⟩

/-- C5 (amended): `generate` draws the key once.  If the key is fresh, the
inserted record has `created_date` = today, `expiry_date` = today +
`duration_days`, `status = "active"` and `activations = 0`, with all
existing records untouched; if the key collides with a stored one the call
fails with a 500 server error leaving the store unchanged — an existing
record is never silently overwritten, but no retry is attempted. -/
theorem generate_inserts_or_fails (st : ServerState)
    (api_key env_key : Option String) (email_raw prod : String)
    (duration maxAct : Int) (gen_key : String) (t0 : Timestamp)
    (hauth : api_key = some (env_key.getD defaultAdminKey))
    (hemail : pyStrip email_raw ≠ "") :
    (findLicense st.licenses gen_key = none →
       (generate_license st api_key env_key email_raw prod duration maxAct
         gen_key t0).2.licenses = st.licenses ++
           [{ license_key := gen_key, email := pyStrip email_raw,
              product := prod, created_date := dateOf t0,
              expiry_date := dateOf (t0 + duration * secondsPerDay),
              status := "active", activations := 0,
              max_activations := maxAct, last_validated := none,
              account_number := none }] ∧
       (generate_license st api_key env_key email_raw prod duration maxAct
         gen_key t0).1.success = true) ∧
    ((findLicense st.licenses gen_key).isSome →
       (generate_license st api_key env_key email_raw prod duration maxAct
         gen_key t0).2 = st ∧
       (generate_license st api_key env_key email_raw prod duration maxAct
         gen_key t0).1.success = false ∧
       (generate_license st api_key env_key email_raw prod duration maxAct
         gen_key t0).1.http = 500) := by
  unfold generate_license
  dsimp only
  rw [hauth]
  rw [if_neg (by simp)]
  rw [if_neg hemail]
  constructor
  · intro hfresh
    rw [if_neg (by simp [hfresh])]
    exact ⟨rfl, rfl⟩
  · intro hcoll
    rw [if_pos hcoll]
    exact ⟨rfl, rfl, rfl⟩

theorem generate_inserts_or_fails_witness :
    (generate_license stPair (some defaultAdminKey) none " x@y.z "
      "NGC_EA" 30 2 "NGC-0008-0008-0008-0008" 43200).1.success = true ∧
    (generate_license stPair (some defaultAdminKey) none "x@y.z" "NGC_EA"
      30 2 "NGC-0002-0002-0002-0002" 43200).1.http = 500 :=
  ⟨((generate_inserts_or_fails stPair (some defaultAdminKey) none " x@y.z "
      "NGC_EA" 30 2 "NGC-0008-0008-0008-0008" 43200 rfl (by decide)).1
      (by decide)).2,
   ((generate_inserts_or_fails stPair (some defaultAdminKey) none "x@y.z"
      "NGC_EA" 30 2 "NGC-0002-0002-0002-0002" 43200 rfl (by decide)).2
      (by decide)).2.2⟩

/-- C10: the outcomes of `validate` and `activate` are independent of the
`account_number` field: two calls differing only in that field return the
same response and the same final state. -/
theorem account_number_irrelevant (st : ServerState)
    (key acct1 acct2 ip : String) (now : Timestamp) :
    validate_license st key acct1 ip now = validate_license st key acct2 ip now ∧
    activate_license st key acct1 = activate_license st key acct2 :=
  ⟨rfl, rfl⟩

end NGC
